import Mathlib

/-!
A shallow embedding of `gdown/cached_download.py`: the cache-path resolver,
the MD5 verifier (`md5sum`, `assert_md5sum`) and the cached-download
coordinator (`cached_download`).

Modelling conventions:
* File contents are `String`s; the filesystem is an association list from
  paths to contents plus the set of staging (temp) directories currently
  present under the cache root.
* The MD5 hash itself is abstracted as a function `hash : String → String`
  supplied by the environment (the claims under verification depend only on
  equality of digests, never on the MD5 algorithm).
* Side effects are recorded in an event trace (`Event`): prints to stdout and
  stderr, the `os.makedirs` attempt, staging-directory creation and removal,
  the transport (`download`) invocation, the lock-protected move, digest
  computations, and postprocess invocation.
* The environment `Env` fixes the outcome of each external collaborator:
  the transport either produces the downloaded content or raises, the move
  either succeeds or raises, `os.makedirs` either succeeds or raises
  `OSError` with some message, and `tempfile.mkdtemp` yields a fresh name.
* Python exception classes become constructors of `Err`; `try/except`
  becomes matching on `Except` values.  Python truthiness of the optional
  `md5` argument (`if not md5:`) is `truthy`.
-/

/-- Python exception classes raised in `cached_download.py`:
`ValueError` (malformed expected digest), `AssertionError` (digest
mismatch), `OSError`/`IOError` (filesystem failures), errors raised by the
`download` transport, and errors raised by the user's postprocess callable. -/
inductive Err where
  | valueError : String → Err
  | assertionError : String → Err
  | ioError : String → Err
  | transportError : String → Err
  | postprocessError : String → Err
deriving DecidableEq, Repr

/-- Observable events of one `cached_download` run, in order. -/
inductive Event where
  | stdout : String → Event
  | stderr : String → Event
  | mkdirAttempt : Event
  | tempCreated : String → Event
  | downloadInvoked : Event
  | lockAcquired : Event
  | movedToDest : Event
  | tempRemoved : String → Event
  | md5Computed : String → Event
  | postprocessInvoked : Event
deriving DecidableEq, Repr

/-- The filesystem state: regular files (path ↦ content) and the staging
directories currently existing under the cache root. -/
structure FS where
  files : List (String × String)
  tempDirs : List String
deriving DecidableEq, Repr

def FS.read (fs : FS) (p : String) : Option String :=
  fs.files.lookup p

def FS.existsFile (fs : FS) (p : String) : Bool :=
  (fs.read p).isSome

/-- The download request: `cached_download`'s parameters.  `postprocess`
models the optional callable together with its behaviour: `none` means no
callable was supplied, `some none` a callable that succeeds, `some (some e)`
a callable that raises `e`. -/
structure Request where
  url : String
  path : Option String
  md5 : Option String
  quiet : Bool
  postprocess : Option (Option Err)

/-- The behaviour of the external collaborators during one run. -/
structure Env where
  hash : String → String
  transport : Except Err String
  moveOutcome : Option Err
  mkdirOutcome : Option String
  tempName : String

/-- Result of a run: the returned path or the raised error, the final
filesystem, and the event trace. -/
structure Outcome where
  result : Except Err String
  fs : FS
  events : List Event
deriving Repr

/-- Python truthiness of the optional `md5` argument: `None` and the empty
string are falsy. -/
def truthy : Option String → Bool
  | none => false
  | some s => !(s == "")

/-- `cache_root = osp.join(osp.expanduser("~"), ".cache/gdown")`;
the expansion of `~` is environment-specific, so it is kept literal. -/
def cacheRoot : String := "~/.cache/gdown"

/-- Python's `str.replace` for a single-character pattern: every occurrence
of `c` is replaced by `rep`. -/
def replaceChar (c : Char) (rep : List Char) : List Char → List Char
  | [] => []
  | x :: xs =>
      if x = c then rep ++ replaceChar c rep xs
      else x :: replaceChar c rep xs

/-- The cache-path derivation used when no explicit `path` is given:
`url.replace("/", "-SLASH-").replace(":", "-COLON-")
    .replace("=", "-EQUAL-").replace("?", "-QUESTION-")`. -/
def resolveCachePath (url : String) : String :=
  String.mk (replaceChar '?' "-QUESTION-".data
    (replaceChar '=' "-EQUAL-".data
      (replaceChar ':' "-COLON-".data
        (replaceChar '/' "-SLASH-".data url.data))))

/-- The destination path of a request: the explicit `path` if given,
otherwise `osp.join(cache_root, resolveCachePath url)`. -/
def resolvedPath (req : Request) : String :=
  match req.path with
  | some p => p
  | none => cacheRoot ++ "/" ++ resolveCachePath req.url

/-- `md5sum(filename)`: open the file and hash its content block by block;
raises `IOError` when the file cannot be opened. -/
def md5sum (hash : String → String) (fs : FS) (filename : String) :
    Except Err String :=
  match fs.read filename with
  | none => Except.error (Err.ioError ("cannot open file: " ++ filename))
  | some content => Except.ok (hash content)

def md5ErrMsg (md5 : String) : String :=
  "MD5 must be 32 chars: " ++ md5

def mismatchMsg (actual expected : String) : String :=
  "MD5 doesn't match:\nactual: " ++ actual ++ "\nexpected: " ++ expected

/-- `assert_md5sum(filename, md5, quiet)`: raise `ValueError` unless `md5`
is a 32-character string (before any I/O); otherwise print, compute the
file's digest, and either return `True` on an exact string match or raise
`AssertionError` carrying both digests. -/
def assert_md5sum (hash : String → String) (fs : FS)
    (filename md5 : String) (quiet : Bool) :
    Except Err Bool × List Event :=
  if md5.length = 32 then
    match md5sum hash fs filename with
    | Except.error e =>
        (Except.error e,
         if quiet then [] else [Event.stdout ("Computing MD5: " ++ filename)])
    | Except.ok md5_actual =>
        if md5_actual = md5 then
          (Except.ok true,
           (if quiet then []
            else [Event.stdout ("Computing MD5: " ++ filename)]) ++
             [Event.md5Computed filename] ++
             (if quiet then []
              else [Event.stdout ("MD5 matches: " ++ filename)]))
        else
          (Except.error (Err.assertionError (mismatchMsg md5_actual md5)),
           (if quiet then []
            else [Event.stdout ("Computing MD5: " ++ filename)]) ++
             [Event.md5Computed filename])
  else
    (Except.error (Err.valueError (md5ErrMsg md5)), [])

/-- `msg = f"{msg}: {path}" if path else f"{msg}..."` printed to stderr. -/
def cachedDownloadingMsg (path : String) : String :=
  if path.isEmpty then "Cached Downloading..."
  else "Cached Downloading: " ++ path

/-- `os.makedirs(osp.dirname(path))`: succeeds, or raises `OSError` with
some message (the caller wraps it in `try: ... except OSError: pass`). -/
def makedirs (outcome : Option String) : Except Err Unit :=
  match outcome with
  | some msg => Except.error (Err.ioError msg)
  | none => Except.ok ()

/-- Events emitted between entering the download phase and invoking the
transport: the `makedirs` attempt, `mkdtemp`, and the stderr notice. -/
def baseEvents (req : Request) (path temp_root : String) : List Event :=
  [Event.mkdirAttempt, Event.tempCreated temp_root] ++
    (if req.quiet then [] else [Event.stderr (cachedDownloadingMsg path)])

/-- `if postprocess is not None: postprocess(path)` then `return path`. -/
def postprocessPhase (req : Request) (path : String) (fs : FS)
    (evs : List Event) : Outcome :=
  match req.postprocess with
  | none => ⟨Except.ok path, fs, evs⟩
  | some none => ⟨Except.ok path, fs, evs ++ [Event.postprocessInvoked]⟩
  | some (some e) =>
      ⟨Except.error e, fs, evs ++ [Event.postprocessInvoked]⟩

/-- `if md5: assert_md5sum(path, md5, quiet=quiet)` after the move; a
failure here is not caught. -/
def postVerifyPhase (env : Env) (req : Request) (path : String) (fs : FS)
    (evs : List Event) : Outcome :=
  if truthy req.md5 then
    match assert_md5sum env.hash fs path (req.md5.getD "") req.quiet with
    | (Except.ok _, evs2) => postprocessPhase req path fs (evs ++ evs2)
    | (Except.error e, evs2) => ⟨Except.error e, fs, evs ++ evs2⟩
  else
    postprocessPhase req path fs evs

/-- The download phase of `cached_download`: `makedirs` with `OSError`
swallowed, `mkdtemp` under the cache root, the stderr notice, the transport
into the staging file, and the lock-protected `shutil.move`; any failure of
the transport or the move removes the staging directory (`shutil.rmtree`)
and re-raises the original error. -/
def downloadPhase (env : Env) (req : Request) (path : String) (fs : FS)
    (evs0 : List Event) : Outcome :=
  let _mk := makedirs env.mkdirOutcome
  let temp_root := cacheRoot ++ "/" ++ env.tempName
  let evs := evs0 ++ baseEvents req path temp_root
  match env.transport with
  | Except.error e =>
      ⟨Except.error e,
       ⟨fs.files, (temp_root :: fs.tempDirs).erase temp_root⟩,
       evs ++ [Event.downloadInvoked, Event.tempRemoved temp_root]⟩
  | Except.ok content =>
      match env.moveOutcome with
      | some e =>
          ⟨Except.error e,
           ⟨fs.files, (temp_root :: fs.tempDirs).erase temp_root⟩,
           evs ++ [Event.downloadInvoked, Event.lockAcquired,
                   Event.tempRemoved temp_root]⟩
      | none =>
          postVerifyPhase env req path
            ⟨(path, content) :: fs.files, temp_root :: fs.tempDirs⟩
            (evs ++ [Event.downloadInvoked, Event.lockAcquired,
                     Event.movedToDest])

/-- `cached_download(url, path, md5, quiet, postprocess, **kwargs)`:
resolve the destination, check the cache (returning early on a trusted or
verified hit, warning on stderr and re-downloading on a digest mismatch),
then run the download phase. -/
def cached_download (env : Env) (req : Request) (fs : FS) : Outcome :=
  if fs.existsFile (resolvedPath req) then
    if truthy req.md5 then
      match assert_md5sum env.hash fs (resolvedPath req)
          (req.md5.getD "") req.quiet with
      | (Except.ok _, evs) => ⟨Except.ok (resolvedPath req), fs, evs⟩
      | (Except.error (Err.assertionError m), evs) =>
          downloadPhase env req (resolvedPath req) fs
            (evs ++ [Event.stderr m])
      | (Except.error e, evs) => ⟨Except.error e, fs, evs⟩
    else
      ⟨Except.ok (resolvedPath req), fs,
       if req.quiet then []
       else [Event.stdout ("File exists: " ++ resolvedPath req)]⟩
  else
    downloadPhase env req (resolvedPath req) fs []

/-! ### Concrete inputs used by witnesses and counterexamples -/

/-- A 32-character digest. -/
def m32 : String := "aaaaaaaaaaaaaaaaaaaaaaaaaaaaaaaa"

/-- Another 32-character digest, distinct from `m32`. -/
def d32 : String := "bbbbbbbbbbbbbbbbbbbbbbbbbbbbbbbb"

/-- A concrete hash: content "new" digests to `m32`, all else to `d32`. -/
def hashW : String → String := fun s => if s = "new" then m32 else d32

/-- A run whose transport succeeds with content "new". -/
def envW : Env := ⟨hashW, Except.ok "new", none, none, "tmpW"⟩

/-- A run whose transport raises. -/
def envFail : Env :=
  ⟨hashW, Except.error (Err.transportError "connection reset"), none, none,
   "tmpF"⟩

/-- A run whose transport succeeds but delivers content with the wrong
digest. -/
def envBad : Env := ⟨hashW, Except.ok "old", none, none, "tmpB"⟩

/-- A run whose `os.makedirs` raises an `OSError` that does not mean
"already exists". -/
def envMkdir : Env :=
  ⟨hashW, Except.ok "new", none, some "Permission denied", "tmpM"⟩

/-- An empty filesystem. -/
def fsEmpty : FS := ⟨[], []⟩

/-- A filesystem holding a stale destination file. -/
def fsOld : FS := ⟨[("p", "old")], []⟩

/-- A filesystem holding a destination file with content "new". -/
def fsNew : FS := ⟨[("p", "new")], []⟩

/-- A request for destination "p" with expected digest `m32`. -/
def reqMd5 : Request := ⟨"u", some "p", some m32, true, none⟩

/-- A request for destination "p" with no expected digest. -/
def reqPlain : Request := ⟨"u", some "p", none, true, none⟩

/-- The C5 scenario URL and request (no explicit destination). -/
def c5url : String := "https://host/uc?id=ABC123&export=download"

def c5req : Request := ⟨c5url, none, none, false, none⟩

/-! ### Helper lemmas -/

theorem mem_replaceChar {a c : Char} {rep : List Char} :
    ∀ {s : List Char}, a ∈ replaceChar c rep s → a ∈ rep ∨ (a ∈ s ∧ a ≠ c)
  | [], h => by simp [replaceChar] at h
  | x :: xs, h => by
      by_cases hx : x = c
      · simp only [replaceChar, if_pos hx, List.mem_append] at h
        rcases h with h | h
        · exact Or.inl h
        · rcases mem_replaceChar h with h | ⟨h1, h2⟩
          · exact Or.inl h
          · exact Or.inr ⟨List.mem_cons_of_mem _ h1, h2⟩
      · simp only [replaceChar, if_neg hx, List.mem_cons] at h
        rcases h with h | h
        · subst h; exact Or.inr ⟨List.mem_cons_self _ _, hx⟩
        · rcases mem_replaceChar h with h | ⟨h1, h2⟩
          · exact Or.inl h
          · exact Or.inr ⟨List.mem_cons_of_mem _ h1, h2⟩

theorem assert_no_download (hash : String → String) (fs : FS)
    (filename md5 : String) (quiet : Bool) :
    Event.downloadInvoked ∉ (assert_md5sum hash fs filename md5 quiet).2 := by
  unfold assert_md5sum md5sum
  rcases hr : fs.read filename with _ | c <;>
    simp only [hr] <;> split_ifs <;> cases quiet <;> simp

theorem assert_no_md5Computed_of_bad (hash : String → String) (fs : FS)
    (filename md5 : String) (quiet : Bool) (h : md5.length ≠ 32) :
    (assert_md5sum hash fs filename md5 quiet).2 = [] := by
  unfold assert_md5sum
  simp [h]

theorem postprocessPhase_fs (req : Request) (path : String) (fs : FS)
    (evs : List Event) : (postprocessPhase req path fs evs).fs = fs := by
  unfold postprocessPhase
  rcases req.postprocess with _ | _ | e <;> rfl

theorem postVerifyPhase_fs (env : Env) (req : Request) (path : String)
    (fs : FS) (evs : List Event) :
    (postVerifyPhase env req path fs evs).fs = fs := by
  unfold postVerifyPhase
  split
  · rcases assert_md5sum env.hash fs path (req.md5.getD "") req.quiet with
      ⟨r, evs2⟩
    rcases r with e | b
    · rfl
    · exact postprocessPhase_fs ..
  · exact postprocessPhase_fs ..

theorem postprocessPhase_events_shape (req : Request) (path : String)
    (fs : FS) (evs : List Event) :
    ∃ t, (postprocessPhase req path fs evs).events = evs ++ t := by
  unfold postprocessPhase
  rcases req.postprocess with _ | _ | e
  · exact ⟨[], by simp⟩
  · exact ⟨[Event.postprocessInvoked], rfl⟩
  · exact ⟨[Event.postprocessInvoked], rfl⟩

theorem postVerifyPhase_events_shape (env : Env) (req : Request)
    (path : String) (fs : FS) (evs : List Event) :
    ∃ t, (postVerifyPhase env req path fs evs).events = evs ++ t := by
  unfold postVerifyPhase
  split
  · rcases ha : assert_md5sum env.hash fs path (req.md5.getD "") req.quiet with
      ⟨r, evs2⟩
    rcases r with e | b
    · exact ⟨evs2, rfl⟩
    · rcases postprocessPhase_events_shape req path fs (evs ++ evs2) with ⟨t, ht⟩
      exact ⟨evs2 ++ t, by rw [ht, List.append_assoc]⟩
  · exact postprocessPhase_events_shape ..

theorem downloadPhase_events_shape (env : Env) (req : Request)
    (path : String) (fs : FS) (evs0 : List Event) :
    ∃ t, (downloadPhase env req path fs evs0).events =
        evs0 ++ baseEvents req path (cacheRoot ++ "/" ++ env.tempName) ++ t ∧
        Event.downloadInvoked ∈ t := by
  unfold downloadPhase
  rcases env.transport with e | content
  · exact ⟨_, rfl, by simp⟩
  · rcases env.moveOutcome with _ | e
    · rcases postVerifyPhase_events_shape env req path
        ⟨(path, content) :: fs.files,
         (cacheRoot ++ "/" ++ env.tempName) :: fs.tempDirs⟩
        (evs0 ++ baseEvents req path (cacheRoot ++ "/" ++ env.tempName) ++
          [Event.downloadInvoked, Event.lockAcquired, Event.movedToDest])
        with ⟨t, ht⟩
      refine ⟨[Event.downloadInvoked, Event.lockAcquired,
               Event.movedToDest] ++ t, ?_, by simp⟩
      rw [ht, List.append_assoc]
    · exact ⟨_, rfl, by simp⟩

theorem downloadPhase_fail (env : Env) (req : Request) (path : String)
    (fs : FS) (evs0 : List Event) (e : Err)
    (h : env.transport = Except.error e ∨
         (env.moveOutcome = some e ∧ ∃ c, env.transport = Except.ok c)) :
    (downloadPhase env req path fs evs0).result = Except.error e ∧
    (downloadPhase env req path fs evs0).fs = fs := by
  unfold downloadPhase
  rcases h with h | ⟨hmv, c, htr⟩
  · rw [h]
    exact ⟨rfl, by simp [List.erase_cons_head]⟩
  · rw [htr, hmv]
    exact ⟨rfl, by simp [List.erase_cons_head]⟩

theorem downloadPhase_ok (env : Env) (req : Request) (path : String)
    (fs : FS) (evs0 : List Event) (c : String)
    (htr : env.transport = Except.ok c) (hmv : env.moveOutcome = none) :
    downloadPhase env req path fs evs0 =
      postVerifyPhase env req path
        ⟨(path, c) :: fs.files,
         (cacheRoot ++ "/" ++ env.tempName) :: fs.tempDirs⟩
        (evs0 ++ baseEvents req path (cacheRoot ++ "/" ++ env.tempName) ++
          [Event.downloadInvoked, Event.lockAcquired, Event.movedToDest]) := by
  unfold downloadPhase
  rw [htr, hmv]

theorem reaches_downloadPhase (env : Env) (req : Request) (fs : FS)
    (hrun : Event.downloadInvoked ∈ (cached_download env req fs).events) :
    ∃ evs0, cached_download env req fs =
      downloadPhase env req (resolvedPath req) fs evs0 := by
  unfold cached_download at hrun ⊢
  by_cases hex : fs.existsFile (resolvedPath req) = true
  · rw [if_pos hex] at hrun ⊢
    by_cases ht : truthy req.md5 = true
    · rw [if_pos ht] at hrun ⊢
      have hnd := assert_no_download env.hash fs (resolvedPath req)
          (req.md5.getD "") req.quiet
      rcases ha : assert_md5sum env.hash fs (resolvedPath req)
          (req.md5.getD "") req.quiet with ⟨r, evs⟩
      rw [ha] at hnd hrun
      rcases r with e | b
      · rcases e with m | m | m | m | m
        · exact absurd hrun hnd
        · exact ⟨evs ++ [Event.stderr m], rfl⟩
        · exact absurd hrun hnd
        · exact absurd hrun hnd
        · exact absurd hrun hnd
      · exact absurd hrun hnd
    · rw [if_neg ht] at hrun ⊢
      rcases hq : req.quiet with _ | _ <;> simp [hq] at hrun
  · rw [if_neg hex] at hrun ⊢
    exact ⟨[], by simp⟩

theorem not_mem_of_replaced {t : Char} {rep : List Char} (hrep : t ∉ rep)
    (s : List Char) : t ∉ replaceChar t rep s := by
  intro h
  rcases mem_replaceChar h with h | ⟨_, hne⟩
  · exact hrep h
  · exact hne rfl

theorem not_mem_replaceChar_of_not_mem {t c : Char} {rep s : List Char}
    (hs : t ∉ s) (hrep : t ∉ rep) : t ∉ replaceChar c rep s := by
  intro h
  rcases mem_replaceChar h with h | ⟨h1, _⟩
  · exact hrep h
  · exact hs h1

/-! ### Claim theorems -/

/-- Claim C8: the URL-to-cache-path derivation is a pure deterministic
function — calling it twice on the same URL yields the same path — and for
every URL its result contains none of the reserved characters
`/`, `:`, `=`, `?`. -/
theorem resolveCachePath_deterministic_and_safe (url : String) :
    resolveCachePath url = resolveCachePath url ∧
    '/' ∉ (resolveCachePath url).data ∧
    ':' ∉ (resolveCachePath url).data ∧
    '=' ∉ (resolveCachePath url).data ∧
    '?' ∉ (resolveCachePath url).data := by
  refine ⟨rfl, ?_, ?_, ?_, ?_⟩
  · exact not_mem_replaceChar_of_not_mem
      (not_mem_replaceChar_of_not_mem
        (not_mem_replaceChar_of_not_mem
          (not_mem_of_replaced (by decide) url.data) (by decide))
        (by decide))
      (by decide)
  · exact not_mem_replaceChar_of_not_mem
      (not_mem_replaceChar_of_not_mem
        (not_mem_of_replaced (by decide)
          (replaceChar '/' "-SLASH-".data url.data)) (by decide))
      (by decide)
  · exact not_mem_replaceChar_of_not_mem
      (not_mem_of_replaced (by decide)
        (replaceChar ':' "-COLON-".data
          (replaceChar '/' "-SLASH-".data url.data)))
      (by decide)
  · exact not_mem_of_replaced (by decide)
      (replaceChar '=' "-EQUAL-".data
        (replaceChar ':' "-COLON-".data
          (replaceChar '/' "-SLASH-".data url.data)))

/-- Claim C5 counterexample: on the scenario URL, with no explicit
destination, the derived cache path is NOT the cache root joined with the
spec's claimed basename (the code leaves `&` untouched and the
`-COLON-`/`-SLASH-` tokens abut with two dashes, not three). -/
theorem c5_claimed_basename_wrong :
    resolvedPath c5req ≠
      cacheRoot ++ "/" ++
        "https-COLON---SLASH---SLASH-host-SLASH-uc-QUESTION-id-EQUAL-ABC123-EQUAL-export-EQUAL-download" := by
  decide

/-- Claim C5 amended: on the scenario URL the derived cache path is the
cache root joined with basename
`https-COLON--SLASH--SLASH-host-SLASH-uc-QUESTION-id-EQUAL-ABC123&export-EQUAL-download`
(token substitutions applied in the order `/`, `:`, `=`, `?`;
the `&` character is not replaced). -/
theorem c5_actual_basename :
    resolvedPath c5req =
      cacheRoot ++ "/" ++
        "https-COLON--SLASH--SLASH-host-SLASH-uc-QUESTION-id-EQUAL-ABC123&export-EQUAL-download" := by
  decide

/-- Claim C4 counterexample: `os.makedirs` fails with an `OSError` that
does not mean "already exists" ("Permission denied"), yet the failure does
not propagate — the call still succeeds and returns the destination path,
because the code wraps the call in `try: ... except OSError: pass`,
swallowing every `OSError`. -/
theorem mkdir_other_failure_not_propagated :
    envMkdir.mkdirOutcome = some "Permission denied" ∧
    makedirs envMkdir.mkdirOutcome =
      Except.error (Err.ioError "Permission denied") ∧
    (cached_download envMkdir reqPlain fsEmpty).result = Except.ok "p" :=
  ⟨rfl, rfl, rfl⟩

/-- Claim C4 amended: during staging, `cached_download` attempts to create
the destination's parent directory, and EVERY directory-creation failure
(`OSError`) — "already exists" or any other — is tolerated silently: the
run proceeds exactly as if the creation had succeeded. -/
theorem mkdir_failures_all_tolerated (env : Env) (req : Request) (fs : FS)
    (msg : String) :
    cached_download { env with mkdirOutcome := some msg } req fs =
      cached_download { env with mkdirOutcome := none } req fs ∧
    (Event.downloadInvoked ∈ (cached_download env req fs).events →
      Event.mkdirAttempt ∈ (cached_download env req fs).events) := by
  constructor
  · rfl
  · intro hrun
    rcases reaches_downloadPhase env req fs hrun with ⟨evs0, heq⟩
    rw [heq]
    rcases downloadPhase_events_shape env req (resolvedPath req) fs evs0 with
      ⟨t, ht, _⟩
    rw [ht]
    simp [baseEvents]

/-- Claim C4 amended, witness. -/
theorem mkdir_failures_all_tolerated_witness :
    cached_download { envW with mkdirOutcome := some "Permission denied" }
        reqPlain fsEmpty =
      cached_download { envW with mkdirOutcome := none } reqPlain fsEmpty ∧
    Event.mkdirAttempt ∈ (cached_download envW reqPlain fsEmpty).events :=
  ⟨(mkdir_failures_all_tolerated envW reqPlain fsEmpty "Permission denied").1,
   (mkdir_failures_all_tolerated envW reqPlain fsEmpty
      "Permission denied").2 (by decide)⟩

/-- Claim C1: if a file already exists at the (resolved or explicit)
destination path, then with no supplied checksum, or with a supplied
32-character checksum matching the file's digest, `cached_download`
returns that path immediately, leaves the filesystem unchanged, and never
invokes the download transport. -/
theorem cache_hit_returns_immediately (env : Env) (req : Request) (fs : FS)
    (c : String) (hread : fs.read (resolvedPath req) = some c)
    (hmd5 : req.md5 = none ∨
      ∃ m, req.md5 = some m ∧ m.length = 32 ∧ env.hash c = m) :
    (cached_download env req fs).result = Except.ok (resolvedPath req) ∧
    (cached_download env req fs).fs = fs ∧
    Event.downloadInvoked ∉ (cached_download env req fs).events := by
  have hex : fs.existsFile (resolvedPath req) = true := by
    simp [FS.existsFile, hread]
  unfold cached_download
  rw [if_pos hex]
  rcases hmd5 with hnone | ⟨m, hm, hlen, hhash⟩
  · rw [hnone, if_neg (by simp [truthy])]
    refine ⟨rfl, rfl, ?_⟩
    cases hq : req.quiet <;> simp [hq]
  · have hne : m ≠ "" := by
      intro h
      rw [h] at hlen
      simp at hlen
    have htr : truthy (some m) = true := by simp [truthy, hne]
    rw [hm, if_pos htr]
    have hnd := assert_no_download env.hash fs (resolvedPath req)
        ((some m).getD "") req.quiet
    rcases ha : assert_md5sum env.hash fs (resolvedPath req)
        ((some m).getD "") req.quiet with ⟨r, evs⟩
    rw [ha] at hnd
    have hr : r = Except.ok true := by
      have h1 : (assert_md5sum env.hash fs (resolvedPath req)
          ((some m).getD "") req.quiet).1 = Except.ok true := by
        simp [assert_md5sum, md5sum, hread, hlen, hhash]
      rw [ha] at h1
      exact h1
    rw [hr]
    exact ⟨rfl, rfl, hnd⟩

/-- Claim C1, witness: destination "p" holds content "new" whose digest is
`m32`; with expected digest `m32` the call returns "p" at once, changes
nothing, and never invokes the transport. -/
theorem cache_hit_returns_immediately_witness :
    (cached_download envW reqMd5 fsNew).result = Except.ok (resolvedPath reqMd5) ∧
    (cached_download envW reqMd5 fsNew).fs = fsNew ∧
    Event.downloadInvoked ∉ (cached_download envW reqMd5 fsNew).events :=
  cache_hit_returns_immediately envW reqMd5 fsNew "new" (by decide)
    (Or.inr ⟨m32, rfl, by decide, by decide⟩)

/-- Claim C2: when the download transport (or the subsequent move) raises,
the staging directory is recursively removed (it does not remain in the
final filesystem), the original error is re-raised unchanged, the
filesystem is left exactly as before the call, and in particular no file
appears at the destination path that was not there before. -/
theorem transfer_failure_cleans_up (env : Env) (req : Request) (fs : FS)
    (e : Err)
    (hfail : env.transport = Except.error e ∨
             (env.moveOutcome = some e ∧ ∃ c, env.transport = Except.ok c))
    (hrun : Event.downloadInvoked ∈ (cached_download env req fs).events)
    (hfresh : cacheRoot ++ "/" ++ env.tempName ∉ fs.tempDirs) :
    (cached_download env req fs).result = Except.error e ∧
    (cached_download env req fs).fs = fs ∧
    cacheRoot ++ "/" ++ env.tempName ∉
      (cached_download env req fs).fs.tempDirs ∧
    (fs.existsFile (resolvedPath req) = false →
      (cached_download env req fs).fs.existsFile (resolvedPath req) =
        false) := by
  rcases reaches_downloadPhase env req fs hrun with ⟨evs0, heq⟩
  rw [heq]
  rcases downloadPhase_fail env req (resolvedPath req) fs evs0 e hfail with
    ⟨h1, h2⟩
  refine ⟨h1, h2, ?_, ?_⟩
  · rw [h2]
    exact hfresh
  · intro h
    rw [h2]
    exact h

/-- Claim C2, witness: a transport failure on an empty cache leaves the
filesystem untouched — no staging directory and no destination file — and
re-raises the transport's error. -/
theorem transfer_failure_cleans_up_witness :
    (cached_download envFail reqPlain fsEmpty).result =
      Except.error (Err.transportError "connection reset") ∧
    (cached_download envFail reqPlain fsEmpty).fs = fsEmpty ∧
    cacheRoot ++ "/" ++ envFail.tempName ∉
      (cached_download envFail reqPlain fsEmpty).fs.tempDirs ∧
    (cached_download envFail reqPlain fsEmpty).fs.existsFile
      (resolvedPath reqPlain) = false := by
  have h := transfer_failure_cleans_up envFail reqPlain fsEmpty
    (Err.transportError "connection reset") (Or.inl rfl) (by decide)
    (by decide)
  exact ⟨h.1, h.2.1, h.2.2.1, h.2.2.2 (by decide)⟩

/-- Claim C3: when the destination exists and a supplied 32-character
checksum does not match its digest, the mismatch message is emitted as a
warning on the error stream, the download proceeds (the transport is
invoked), and if the call returns successfully the final file's digest
equals the supplied checksum. -/
theorem stale_cache_warns_and_redownloads (env : Env) (req : Request)
    (fs : FS) (c m : String)
    (hread : fs.read (resolvedPath req) = some c)
    (hm : req.md5 = some m) (hlen : m.length = 32)
    (hmm : env.hash c ≠ m) :
    Event.stderr (mismatchMsg (env.hash c) m) ∈
      (cached_download env req fs).events ∧
    Event.downloadInvoked ∈ (cached_download env req fs).events ∧
    ∀ r, (cached_download env req fs).result = Except.ok r →
      ∃ c2, (cached_download env req fs).fs.read (resolvedPath req) =
          some c2 ∧ env.hash c2 = m := by
  have hex : fs.existsFile (resolvedPath req) = true := by
    simp [FS.existsFile, hread]
  have hne : m ≠ "" := by
    intro h
    rw [h] at hlen
    simp at hlen
  have htr : truthy (some m) = true := by simp [truthy, hne]
  unfold cached_download
  rw [if_pos hex, hm, if_pos htr]
  rcases ha : assert_md5sum env.hash fs (resolvedPath req)
      ((some m).getD "") req.quiet with ⟨r, evs⟩
  have hr : r = Except.error (Err.assertionError
      (mismatchMsg (env.hash c) m)) := by
    have h1 : (assert_md5sum env.hash fs (resolvedPath req)
        ((some m).getD "") req.quiet).1 = Except.error (Err.assertionError
          (mismatchMsg (env.hash c) m)) := by
      simp [assert_md5sum, md5sum, hread, hlen, hmm]
    rw [ha] at h1
    exact h1
  subst hr
  rcases downloadPhase_events_shape env req (resolvedPath req) fs
      (evs ++ [Event.stderr (mismatchMsg (env.hash c) m)]) with ⟨t, ht, hdl⟩
  refine ⟨?_, ?_, ?_⟩
  · rw [ht]
    simp
  · rw [ht]
    simp [hdl]
  · intro r hres
    replace hres : (downloadPhase env req (resolvedPath req) fs
        (evs ++ [Event.stderr (mismatchMsg (env.hash c) m)])).result =
        Except.ok r := hres
    show ∃ c2, (downloadPhase env req (resolvedPath req) fs
        (evs ++ [Event.stderr (mismatchMsg (env.hash c) m)])).fs.read
          (resolvedPath req) = some c2 ∧ env.hash c2 = m
    rcases htr2 : env.transport with e2 | content
    · have hf := (downloadPhase_fail env req (resolvedPath req) fs
        (evs ++ [Event.stderr (mismatchMsg (env.hash c) m)]) e2
        (Or.inl htr2)).1
      rw [hf] at hres
      simp at hres
    · rcases hmv : env.moveOutcome with _ | e2
      · rw [downloadPhase_ok env req (resolvedPath req) fs
          (evs ++ [Event.stderr (mismatchMsg (env.hash c) m)]) content
          htr2 hmv] at hres ⊢
        by_cases hco : env.hash content = m
        · refine ⟨content, ?_, hco⟩
          rw [postVerifyPhase_fs]
          simp [FS.read, List.lookup]
        · exfalso
          unfold postVerifyPhase at hres
          rw [hm, if_pos htr] at hres
          have hread2 : (FS.mk ((resolvedPath req, content) :: fs.files)
              ((cacheRoot ++ "/" ++ env.tempName) :: fs.tempDirs)).read
                (resolvedPath req) = some content := by
            simp [FS.read, List.lookup]
          have h2 : (assert_md5sum env.hash
              (FS.mk ((resolvedPath req, content) :: fs.files)
                ((cacheRoot ++ "/" ++ env.tempName) :: fs.tempDirs))
              (resolvedPath req) ((some m).getD "") req.quiet).1 =
              Except.error (Err.assertionError
                (mismatchMsg (env.hash content) m)) := by
            simp [assert_md5sum, md5sum, hread2, hlen, hco]
          rcases ha2 : assert_md5sum env.hash
              (FS.mk ((resolvedPath req, content) :: fs.files)
                ((cacheRoot ++ "/" ++ env.tempName) :: fs.tempDirs))
              (resolvedPath req) ((some m).getD "") req.quiet with ⟨r2, evs2⟩
          rw [ha2] at h2 hres
          simp at h2
          rw [h2] at hres
          simp at hres
      · have hf := (downloadPhase_fail env req (resolvedPath req) fs
          (evs ++ [Event.stderr (mismatchMsg (env.hash c) m)]) e2
          (Or.inr ⟨hmv, content, htr2⟩)).1
        rw [hf] at hres
        simp at hres

/-- Claim C3, witness: destination "p" holds stale content "old" (digest
`d32` ≠ `m32`); the mismatch is warned on stderr, the transport is
invoked, and the call succeeds with a final file whose digest is `m32`. -/
theorem stale_cache_warns_and_redownloads_witness :
    Event.stderr (mismatchMsg (envW.hash "old") m32) ∈
      (cached_download envW reqMd5 fsOld).events ∧
    Event.downloadInvoked ∈ (cached_download envW reqMd5 fsOld).events ∧
    ∃ c2, (cached_download envW reqMd5 fsOld).fs.read
        (resolvedPath reqMd5) = some c2 ∧ envW.hash c2 = m32 := by
  have h := stale_cache_warns_and_redownloads envW reqMd5 fsOld "old" m32
    (by decide) rfl (by decide) (by decide)
  exact ⟨h.1, h.2.1, h.2.2 "p" rfl⟩

/-- Claim C7: after a fresh download has been moved to the destination, a
checksum mismatch found by the post-download verification is not caught:
`cached_download` fails with exactly the `AssertionError` carrying the
actual and expected digests, while the moved file stays in place. -/
theorem post_download_mismatch_fatal (env : Env) (req : Request) (fs : FS)
    (content m : String)
    (htr : env.transport = Except.ok content)
    (hmv : env.moveOutcome = none)
    (hm : req.md5 = some m) (hlen : m.length = 32)
    (hmm : env.hash content ≠ m)
    (hrun : Event.downloadInvoked ∈ (cached_download env req fs).events) :
    (cached_download env req fs).result =
      Except.error (Err.assertionError
        (mismatchMsg (env.hash content) m)) ∧
    (cached_download env req fs).fs.read (resolvedPath req) =
      some content := by
  have hne : m ≠ "" := by
    intro h
    rw [h] at hlen
    simp at hlen
  have htruthy : truthy (some m) = true := by simp [truthy, hne]
  rcases reaches_downloadPhase env req fs hrun with ⟨evs0, heq⟩
  rw [heq]
  rw [downloadPhase_ok env req (resolvedPath req) fs evs0 content htr hmv]
  unfold postVerifyPhase
  rw [hm, if_pos htruthy]
  have hread2 : (FS.mk ((resolvedPath req, content) :: fs.files)
      ((cacheRoot ++ "/" ++ env.tempName) :: fs.tempDirs)).read
        (resolvedPath req) = some content := by
    simp [FS.read, List.lookup]
  have h2 : (assert_md5sum env.hash
      (FS.mk ((resolvedPath req, content) :: fs.files)
        ((cacheRoot ++ "/" ++ env.tempName) :: fs.tempDirs))
      (resolvedPath req) ((some m).getD "") req.quiet).1 =
      Except.error (Err.assertionError
        (mismatchMsg (env.hash content) m)) := by
    simp [assert_md5sum, md5sum, hread2, hlen, hmm]
  rcases ha2 : assert_md5sum env.hash
      (FS.mk ((resolvedPath req, content) :: fs.files)
        ((cacheRoot ++ "/" ++ env.tempName) :: fs.tempDirs))
      (resolvedPath req) ((some m).getD "") req.quiet with ⟨r2, evs2⟩
  rw [ha2] at h2
  simp only at h2
  rw [h2]
  exact ⟨rfl, hread2⟩

/-- Claim C7, witness: the transport delivers content "old" (digest `d32`)
while `m32` was expected; the run ends with the `AssertionError` and the
mismatched file stays at "p". -/
theorem post_download_mismatch_fatal_witness :
    (cached_download envBad reqMd5 fsEmpty).result =
      Except.error (Err.assertionError
        (mismatchMsg (envBad.hash "old") m32)) ∧
    (cached_download envBad reqMd5 fsEmpty).fs.read
      (resolvedPath reqMd5) = some "old" :=
  post_download_mismatch_fatal envBad reqMd5 fsEmpty "old" m32 rfl rfl rfl
    (by decide) (by decide) (by decide)

/-- Claim C9: once the staged file has been moved to the destination, no
later failure (post-download verification or postprocess) removes it: the
destination still holds the downloaded content when the call ends with an
error. -/
theorem moved_file_never_rolled_back (env : Env) (req : Request) (fs : FS)
    (content : String) (e : Err)
    (htr : env.transport = Except.ok content)
    (hmv : env.moveOutcome = none)
    (hrun : Event.downloadInvoked ∈ (cached_download env req fs).events)
    (herr : (cached_download env req fs).result = Except.error e) :
    (cached_download env req fs).fs.read (resolvedPath req) =
      some content ∧
    Event.movedToDest ∈ (cached_download env req fs).events := by
  rcases reaches_downloadPhase env req fs hrun with ⟨evs0, heq⟩
  rw [heq] at herr ⊢
  rw [downloadPhase_ok env req (resolvedPath req) fs evs0 content htr hmv]
    at herr ⊢
  constructor
  · rw [postVerifyPhase_fs]
    simp [FS.read, List.lookup]
  · rcases postVerifyPhase_events_shape env req (resolvedPath req)
      (FS.mk ((resolvedPath req, content) :: fs.files)
        ((cacheRoot ++ "/" ++ env.tempName) :: fs.tempDirs))
      (evs0 ++ baseEvents req (resolvedPath req)
          (cacheRoot ++ "/" ++ env.tempName) ++
        [Event.downloadInvoked, Event.lockAcquired, Event.movedToDest])
      with ⟨t, ht⟩
    rw [ht]
    simp

/-- Claim C9, witness: the post-download verification fails, yet the
mismatched downloaded file stays at the destination. -/
theorem moved_file_never_rolled_back_witness :
    (cached_download envBad reqMd5 fsEmpty).fs.read (resolvedPath reqMd5) =
      some "old" ∧
    Event.movedToDest ∈ (cached_download envBad reqMd5 fsEmpty).events :=
  moved_file_never_rolled_back envBad reqMd5 fsEmpty "old"
    (Err.assertionError (mismatchMsg (hashW "old") m32)) rfl rfl (by decide)
    rfl

/-- Claim C6: `assert_md5sum` fails with `ValueError` — touching no file,
whatever the filesystem contents — whenever the expected digest is not a
32-character string; for a 32-character expected digest on a readable file
it succeeds exactly when the file's digest equals the expected one
(case-sensitive string equality), and otherwise fails with an
`AssertionError` whose message carries both the actual and the expected
digest. -/
theorem assert_md5sum_contract (hash : String → String) (fs : FS)
    (filename md5 : String) (quiet : Bool) :
    (md5.length ≠ 32 →
      assert_md5sum hash fs filename md5 quiet =
        (Except.error (Err.valueError (md5ErrMsg md5)), [])) ∧
    (md5.length = 32 → ∀ c, fs.read filename = some c →
      ((hash c = md5 →
         (assert_md5sum hash fs filename md5 quiet).1 = Except.ok true) ∧
       (hash c ≠ md5 →
         (assert_md5sum hash fs filename md5 quiet).1 =
           Except.error (Err.assertionError
             (mismatchMsg (hash c) md5))))) := by
  constructor
  · intro h
    unfold assert_md5sum
    rw [if_neg h]
  · intro hlen c hread
    constructor
    · intro hh
      simp [assert_md5sum, md5sum, hread, hlen, hh]
    · intro hh
      simp [assert_md5sum, md5sum, hread, hlen, hh]

/-- Claim C6, witness: a 3-character expected digest fails fast with
`ValueError` and no events; with a 32-character expected digest the call
succeeds on a match and raises the two-digest `AssertionError` on a
mismatch. -/
theorem assert_md5sum_contract_witness :
    assert_md5sum hashW fsNew "p" "xyz" true =
      (Except.error (Err.valueError (md5ErrMsg "xyz")), []) ∧
    (assert_md5sum hashW fsNew "p" m32 true).1 = Except.ok true ∧
    (assert_md5sum hashW fsNew "p" d32 true).1 =
      Except.error (Err.assertionError (mismatchMsg (hashW "new") d32)) :=
  ⟨(assert_md5sum_contract hashW fsNew "p" "xyz" true).1 (by decide),
   ((assert_md5sum_contract hashW fsNew "p" m32 true).2 (by decide) "new"
      rfl).1 (by decide),
   ((assert_md5sum_contract hashW fsNew "p" d32 true).2 (by decide) "new"
      rfl).2 (by decide)⟩

theorem downloadPhase_no_md5Computed (env : Env) (req : Request)
    (path : String) (fs : FS) (evs0 : List Event) (p : String)
    (hmd : truthy req.md5 = false)
    (h0 : Event.md5Computed p ∉ evs0) :
    Event.md5Computed p ∉ (downloadPhase env req path fs evs0).events := by
  unfold downloadPhase postVerifyPhase postprocessPhase
  rcases env.transport with e | content
  · cases hq : req.quiet <;> simp [baseEvents, hq, h0]
  · rcases env.moveOutcome with _ | e
    · rcases req.postprocess with _ | _ | e <;> cases hq : req.quiet <;>
        simp [baseEvents, hq, h0, hmd]
    · cases hq : req.quiet <;> simp [baseEvents, hq, h0]

/-- Claim C10: an empty-string checksum is treated exactly like an absent
checksum — the whole run (result, filesystem, events) is identical — and
in such a run no digest is ever computed: an existing destination is
trusted unverified and a fresh download gets no post-download
verification, so the 32-character validation never sees the empty
string. -/
theorem empty_md5_like_absent (env : Env) (req : Request) (fs : FS) :
    cached_download env { req with md5 := some "" } fs =
      cached_download env { req with md5 := none } fs ∧
    ∀ p, Event.md5Computed p ∉
      (cached_download env { req with md5 := some "" } fs).events := by
  constructor
  · rfl
  · intro p
    unfold cached_download
    by_cases hex : fs.existsFile
        (resolvedPath { req with md5 := some "" }) = true
    · rw [if_pos hex]
      rw [if_neg (by simp [truthy])]
      cases hq : req.quiet <;> simp [hq]
    · rw [if_neg hex]
      exact downloadPhase_no_md5Computed env _ _ fs [] p
        (by simp [truthy]) (by simp)

/-- Claim C8, witness: the resolver applied to the scenario URL. -/
theorem resolveCachePath_deterministic_and_safe_witness :
    resolveCachePath c5url = resolveCachePath c5url ∧
    '/' ∉ (resolveCachePath c5url).data ∧
    ':' ∉ (resolveCachePath c5url).data ∧
    '=' ∉ (resolveCachePath c5url).data ∧
    '?' ∉ (resolveCachePath c5url).data :=
  resolveCachePath_deterministic_and_safe c5url

/-- Claim C10, witness: a concrete run with `md5=""` coincides with the
same run with `md5=None`, and computes no digest of the destination. -/
theorem empty_md5_like_absent_witness :
    cached_download envW { reqPlain with md5 := some "" } fsEmpty =
      cached_download envW { reqPlain with md5 := none } fsEmpty ∧
    Event.md5Computed "p" ∉
      (cached_download envW { reqPlain with md5 := some "" }
        fsEmpty).events :=
  ⟨(empty_md5_like_absent envW reqPlain fsEmpty).1,
   (empty_md5_like_absent envW reqPlain fsEmpty).2 "p"⟩
